import Mathlib

/-!
A shallow embedding of `src/metasrv/src/meta_service/meta_service_impl.rs`:
the gRPC service adapter of the metadata control plane.  The wire envelopes,
the token check and the six RPC handlers (`handshake`, `write`, `get`,
`forward`, `append_entries`, `install_snapshot`, `vote`) are translated from
the source.  The meta node, its consensus engine and the serde/prost codecs
are implemented outside this file of the repository, so they enter the
embedding as explicit records of response functions; each theorem then
quantifies over their behaviour.  Every handler also returns the list of
invocations it made on the meta node, so that "the meta node is never
invoked" is a provable statement about the handler.
-/

deriving instance DecidableEq for Except

namespace MetaSrv

/-- The tonic status-code categories used by the handlers. -/
inductive StatusCode where
  | internal
  | invalidArgument
  | unauthenticated
  | failedPrecondition
deriving DecidableEq, Repr

/-- A tonic `Status`: a code category and a message. -/
structure Status where
  code : StatusCode
  message : String
deriving DecidableEq, Repr

/-- `tonic::Status::internal`. -/
def Status.internal (m : String) : Status :=
  { code := StatusCode.internal, message := m }

/-- `tonic::Status::invalid_argument`. -/
def Status.invalid_argument (m : String) : Status :=
  { code := StatusCode.invalidArgument, message := m }

/-- `tonic::Status::unauthenticated`. -/
def Status.unauthenticated (m : String) : Status :=
  { code := StatusCode.unauthenticated, message := m }

/-- The request metadata, restricted to the single binary key the service
reads, `auth-token-bin`.  `none` models an absent header; `some none` a
header whose bytes fail the to-bytes/utf8 decoding chain; `some (some s)` a
header decoding to the token string `s`. -/
structure MetadataMap where
  authTokenBin : Option (Option String)
deriving DecidableEq, Repr

/-- The chain `metadata.get_bin("auth-token-bin") .and_then(to_bytes)
.and_then(from_utf8)` from `check_token`. -/
def MetadataMap.getAuthToken (m : MetadataMap) : Option String :=
  m.authTokenBin.bind id

/-- A `tonic::Request`: metadata plus the decoded message. -/
structure Request (α : Type) where
  metadata : MetadataMap
  message : α
deriving DecidableEq, Repr

/-- `FlightClaim`: the decoded identity a token attests to. -/
structure FlightClaim where
  username : String
deriving DecidableEq, Repr

/-- Modelled from the spec: the Token Service of section 4.1 (`FlightToken`,
implemented outside `src/`): process-wide signing key material established
once at startup. -/
structure FlightToken where
  key : Nat
deriving DecidableEq, Repr

/-- Modelled from the spec: a deterministic signature over the encoded
claim, standing in for the tamper-evidence of section 4.1. -/
def signature (key : Nat) (s : String) : Nat :=
  s.data.foldl (fun h c => h * 31 + c.toNat) (key + 1)

/-- Modelled from the spec: the token issued for a username — a
deterministic encoding of the claim plus its signature. -/
def FlightToken.issuedToken (t : FlightToken) (u : String) : String :=
  u ++ ":" ++ toString (signature t.key u)

/-- Modelled from the spec: `issue(claim) -> Token`, deterministic and
side-effect free (`FlightToken::try_create_token`). -/
def FlightToken.try_create_token (t : FlightToken) (c : FlightClaim) :
    Except String String :=
  Except.ok (t.issuedToken c.username)

/-- Splits a character list at its first colon; `none` when no colon
occurs. -/
def splitColon (cs : List Char) : Option (List Char × List Char) :=
  match cs with
  | [] => none
  | c :: rest =>
    if c = ':' then some ([], rest)
    else
      match splitColon rest with
      | none => none
      | some (u, s) => some (c :: u, s)

/-- Modelled from the spec: `verify(token) -> Claim`, failing when the token
is malformed or the signature does not match
(`FlightToken::try_verify_token`). -/
def FlightToken.try_verify_token (t : FlightToken) (token : String) :
    Except String FlightClaim :=
  match splitColon token.data with
  | none => Except.error "InvalidToken"
  | some (u, s) =>
    if String.mk s = toString (signature t.key (String.mk u)) then
      Except.ok { username := String.mk u }
    else Except.error "InvalidToken"

/-- Protobuf `RaftRequest`: an opaque envelope carrying a serialized
payload string. -/
structure RaftRequest where
  data : String
deriving DecidableEq, Repr

/-- Protobuf `RaftReply`: serialized data or a serialized error. -/
structure RaftReply where
  data : String
  error : String
deriving DecidableEq, Repr

/-- Protobuf `GetReq`. -/
structure GetReq where
  key : String
deriving DecidableEq, Repr

/-- Protobuf `GetReply`. -/
structure GetReply where
  ok : Bool
  key : String
  value : String
deriving DecidableEq, Repr

/-- Arrow-flight `BasicAuth`: the credential carried by the first
handshake frame. -/
structure BasicAuth where
  username : String
  password : String
deriving DecidableEq, Repr

/-- Arrow-flight `HandshakeRequest`; only its `payload` bytes are read. -/
structure HandshakeRequest where
  payload : List Nat
deriving DecidableEq, Repr

/-- Arrow-flight `HandshakeResponse`; its payload carries the bytes of the
issued token, modelled by the token string they spell. -/
structure HandshakeResponse where
  payload : String
deriving DecidableEq, Repr

/-- `LogEntry`: opaque at this layer (its structure is decoded elsewhere). -/
structure LogEntry where
  raw : String
deriving DecidableEq, Repr

/-- `AppliedState`: the state-machine result of a committed entry, opaque
at this layer. -/
structure AppliedState where
  raw : String
deriving DecidableEq, Repr

/-- The successful result type of `MetaNode::handle_forwardable_request`,
opaque here; `write` converts it into an `AppliedState`. -/
structure ForwardResponse where
  raw : String
deriving DecidableEq, Repr

/-- `ForwardRequestBody`: a `Write` carrying a `LogEntry`, or (modelled
from the spec, section 3) an administrative body, collapsed into one
opaque variant. -/
inductive ForwardRequestBody where
  | write (ent : LogEntry)
  | admin (raw : String)
deriving DecidableEq, Repr

/-- `ForwardRequest`: remaining hop budget plus body. -/
structure ForwardRequest where
  forward_to_leader : Nat
  body : ForwardRequestBody
deriving DecidableEq, Repr

/-- Typed raft `AppendEntries` request, opaque at this layer. -/
structure AppendEntriesReq where
  raw : String
deriving DecidableEq, Repr

/-- Typed raft `AppendEntries` response, opaque at this layer. -/
structure AppendEntriesResp where
  raw : String
deriving DecidableEq, Repr

/-- Typed raft `InstallSnapshot` request, opaque at this layer. -/
structure InstallSnapshotReq where
  raw : String
deriving DecidableEq, Repr

/-- Typed raft `InstallSnapshot` response, opaque at this layer. -/
structure InstallSnapshotResp where
  raw : String
deriving DecidableEq, Repr

/-- Typed raft `Vote` request, opaque at this layer. -/
structure VoteReq where
  raw : String
deriving DecidableEq, Repr

/-- Typed raft `Vote` response, opaque at this layer. -/
structure VoteResp where
  raw : String
deriving DecidableEq, Repr

/-- Modelled from the spec: the Metadata Node with its consensus engine
(sections 4.2 and 4.4, outside `src/`), seen from the service adapter as a
record of response functions: `handle_forwardable_request` and the three
raft entry points the handlers dispatch to. -/
structure MetaNode where
  handle_forwardable_request : ForwardRequest → Except String ForwardResponse
  raft_append_entries : AppendEntriesReq → Except String AppendEntriesResp
  raft_install_snapshot : InstallSnapshotReq → Except String InstallSnapshotResp
  raft_vote : VoteReq → Except String VoteResp

/-- The serde/prost codec functions and conversion impls the handlers use.
Their implementations live outside `src/`, so the embedding takes them as
parameters; the theorems hold for every codec behaviour. -/
structure Codecs where
  decodeLogEntry : RaftRequest → Except Status LogEntry
  decodeForwardRequest : String → Except String ForwardRequest
  decodeAppendEntries : String → Except String AppendEntriesReq
  decodeInstallSnapshot : String → Except String InstallSnapshotReq
  decodeVote : String → Except String VoteReq
  encodeAppendEntriesResp : AppendEntriesResp → Except String String
  encodeInstallSnapshotResp : InstallSnapshotResp → Except String String
  encodeVoteResp : VoteResp → Except String String
  encodeApplied : AppliedState → String
  encodeError : String → String
  encodeForwardResult : Except String ForwardResponse → RaftReply
  try_into_applied : ForwardResponse → Option AppliedState
  decodeBasicAuth : List Nat → Except String BasicAuth

/-- Modelled from the spec: `RaftReply::from(Result<AppliedState, _>)` — a
successful result is serialized into `data`, a failure into `error`. -/
def RaftReply.ofAppliedResult (cfg : Codecs) :
    Except String AppliedState → RaftReply
  | Except.ok a => { data := cfg.encodeApplied a, error := "" }
  | Except.error e => { data := "", error := cfg.encodeError e }

/-- What a handler body can do: return a reply, return an error status, or
panic (a Rust `expect` or `unwrap`). -/
inductive HandlerOutcome (α : Type) where
  | ok (a : α)
  | err (st : Status)
  | panic (msg : String)
deriving DecidableEq, Repr

/-- A record of each invocation a handler makes on the meta node. -/
inductive NodeCall where
  | forwardable (r : ForwardRequest)
  | appendEntries (r : AppendEntriesReq)
  | installSnapshot (r : InstallSnapshotReq)
  | voteCall (r : VoteReq)
deriving DecidableEq, Repr

/-- `MetaServiceImpl`: the token verifier plus the shared meta node. -/
structure MetaServiceImpl where
  token : FlightToken
  meta_node : MetaNode

/-- `MetaServiceImpl::check_token`: extracts the `auth-token-bin` metadata
entry (any failure in the chain yields the internal status
`Error auth-token-bin is empty`) and verifies the token (a verification
failure also yields an internal status). -/
def MetaServiceImpl.check_token (s : MetaServiceImpl) (metadata : MetadataMap) :
    Except Status FlightClaim :=
  match metadata.getAuthToken with
  | none => Except.error (Status.internal "Error auth-token-bin is empty")
  | some token =>
    match s.token.try_verify_token token with
    | Except.error e => Except.error (Status.internal e)
    | Except.ok claim => Except.ok claim

/-- `MetaServiceImpl::handshake`: reads the first frame of the stream,
decodes `BasicAuth` from its payload, accepts exactly the fixed principal
`root` (only the username is inspected), and answers with a single-frame
stream carrying the issued token; any other username yields an
unauthenticated status naming it. -/
def handshake (s : MetaServiceImpl) (cfg : Codecs)
    (frames : List (Except Status HandshakeRequest)) :
    Except Status (List HandshakeResponse) :=
  match frames with
  | [] => Except.error (Status.internal "Error request next is None")
  | Except.error st :: _ => Except.error st
  | Except.ok req :: _ =>
    match cfg.decodeBasicAuth req.payload with
    | Except.error e => Except.error (Status.internal e)
    | Except.ok auth =>
      if auth.username = "root" then
        match s.token.try_create_token { username := "root" } with
        | Except.error e => Except.error (Status.internal e)
        | Except.ok token => Except.ok [{ payload := token }]
      else
        Except.error (Status.unauthenticated ("Unknown user: " ++ auth.username))

/-- `MetaServiceImpl::write`: the token check is commented out in the
source; the envelope is converted into a `LogEntry`, entered via
`handle_forwardable_request` with a hop budget of 1 and a `Write` body, the
result is mapped into an `AppliedState` through an `unwrap` that panics
when the conversion fails, and the reply is built from that result. -/
def write (s : MetaServiceImpl) (cfg : Codecs) (request : Request RaftRequest) :
    HandlerOutcome RaftReply × List NodeCall :=
  match cfg.decodeLogEntry request.message with
  | Except.error st => (HandlerOutcome.err st, [])
  | Except.ok ent =>
    let freq : ForwardRequest :=
      { forward_to_leader := 1, body := ForwardRequestBody.write ent }
    match s.meta_node.handle_forwardable_request freq with
    | Except.error e =>
      (HandlerOutcome.ok (RaftReply.ofAppliedResult cfg (Except.error e)),
        [NodeCall.forwardable freq])
    | Except.ok x =>
      match cfg.try_into_applied x with
      | none =>
        (HandlerOutcome.panic "called Result::unwrap on an Err value",
          [NodeCall.forwardable freq])
      | some a =>
        (HandlerOutcome.ok (RaftReply.ofAppliedResult cfg (Except.ok a)),
          [NodeCall.forwardable freq])

/-- `MetaServiceImpl::get`: the local compatibility read path; the token
check is commented out; it always replies `ok = false` with the key echoed
and an empty value, consulting nothing. -/
def get (_s : MetaServiceImpl) (request : Request GetReq) :
    HandlerOutcome GetReply × List NodeCall :=
  (HandlerOutcome.ok { ok := false, key := request.message.key, value := "" }, [])

/-- `MetaServiceImpl::forward`: verifies the bearer token first, decodes the
JSON `ForwardRequest` (failure: invalid-argument), and dispatches it to
`handle_forwardable_request`, turning the result into a `RaftReply`. -/
def forward (s : MetaServiceImpl) (cfg : Codecs) (request : Request RaftRequest) :
    HandlerOutcome RaftReply × List NodeCall :=
  match s.check_token request.metadata with
  | Except.error st => (HandlerOutcome.err st, [])
  | Except.ok _claim =>
    match cfg.decodeForwardRequest request.message.data with
    | Except.error e => (HandlerOutcome.err (Status.invalid_argument e), [])
    | Except.ok admin_req =>
      (HandlerOutcome.ok
        (cfg.encodeForwardResult (s.meta_node.handle_forwardable_request admin_req)),
        [NodeCall.forwardable admin_req])

/-- `MetaServiceImpl::append_entries`: no token check; a decode failure maps
to an internal status; the raft engine result is re-serialized through an
`expect` that panics with `fail to serialize resp` when serialization
fails. -/
def append_entries (s : MetaServiceImpl) (cfg : Codecs)
    (request : Request RaftRequest) :
    HandlerOutcome RaftReply × List NodeCall :=
  match cfg.decodeAppendEntries request.message.data with
  | Except.error e => (HandlerOutcome.err (Status.internal e), [])
  | Except.ok ae_req =>
    match s.meta_node.raft_append_entries ae_req with
    | Except.error e =>
      (HandlerOutcome.err (Status.internal e), [NodeCall.appendEntries ae_req])
    | Except.ok resp =>
      match cfg.encodeAppendEntriesResp resp with
      | Except.error _ =>
        (HandlerOutcome.panic "fail to serialize resp", [NodeCall.appendEntries ae_req])
      | Except.ok data =>
        (HandlerOutcome.ok { data := data, error := "" }, [NodeCall.appendEntries ae_req])

/-- `MetaServiceImpl::install_snapshot`: same shape as `append_entries`. -/
def install_snapshot (s : MetaServiceImpl) (cfg : Codecs)
    (request : Request RaftRequest) :
    HandlerOutcome RaftReply × List NodeCall :=
  match cfg.decodeInstallSnapshot request.message.data with
  | Except.error e => (HandlerOutcome.err (Status.internal e), [])
  | Except.ok is_req =>
    match s.meta_node.raft_install_snapshot is_req with
    | Except.error e =>
      (HandlerOutcome.err (Status.internal e), [NodeCall.installSnapshot is_req])
    | Except.ok resp =>
      match cfg.encodeInstallSnapshotResp resp with
      | Except.error _ =>
        (HandlerOutcome.panic "fail to serialize resp", [NodeCall.installSnapshot is_req])
      | Except.ok data =>
        (HandlerOutcome.ok { data := data, error := "" }, [NodeCall.installSnapshot is_req])

/-- `MetaServiceImpl::vote`: same shape as `append_entries`. -/
def vote (s : MetaServiceImpl) (cfg : Codecs) (request : Request RaftRequest) :
    HandlerOutcome RaftReply × List NodeCall :=
  match cfg.decodeVote request.message.data with
  | Except.error e => (HandlerOutcome.err (Status.internal e), [])
  | Except.ok v_req =>
    match s.meta_node.raft_vote v_req with
    | Except.error e =>
      (HandlerOutcome.err (Status.internal e), [NodeCall.voteCall v_req])
    | Except.ok resp =>
      match cfg.encodeVoteResp resp with
      | Except.error _ =>
        (HandlerOutcome.panic "fail to serialize resp", [NodeCall.voteCall v_req])
      | Except.ok data =>
        (HandlerOutcome.ok { data := data, error := "" }, [NodeCall.voteCall v_req])

/-!  Concrete instances used by witnesses and counterexamples. -/

/-- Bytes to the string they spell, one character per byte. -/
def bytesToString (bs : List Nat) : String :=
  String.mk (bs.map (fun b => Char.ofNat b))

/-- A simple concrete `BasicAuth` byte decoding: the username bytes, a zero
byte, then the password bytes. -/
def splitAuth (bs : List Nat) : BasicAuth :=
  { username := bytesToString (bs.takeWhile (fun b => b ≠ 0)),
    password := bytesToString ((bs.dropWhile (fun b => b ≠ 0)).drop 1) }

/-- A codec record on which every decode, encode and conversion succeeds. -/
def okCodecs : Codecs :=
  { decodeLogEntry := fun r => Except.ok { raw := r.data },
    decodeForwardRequest := fun s =>
      Except.ok { forward_to_leader := 1, body := ForwardRequestBody.admin s },
    decodeAppendEntries := fun s => Except.ok { raw := s },
    decodeInstallSnapshot := fun s => Except.ok { raw := s },
    decodeVote := fun s => Except.ok { raw := s },
    encodeAppendEntriesResp := fun r => Except.ok r.raw,
    encodeInstallSnapshotResp := fun r => Except.ok r.raw,
    encodeVoteResp := fun r => Except.ok r.raw,
    encodeApplied := fun a => a.raw,
    encodeError := fun e => e,
    encodeForwardResult := fun res =>
      match res with
      | Except.ok x => { data := x.raw, error := "" }
      | Except.error e => { data := "", error := e },
    try_into_applied := fun x => some { raw := x.raw },
    decodeBasicAuth := fun bs => Except.ok (splitAuth bs) }

/-- Like `okCodecs` but the four envelope decoders fail. -/
def failDecodeCodecs : Codecs :=
  { okCodecs with
    decodeForwardRequest := fun _ => Except.error "bad json",
    decodeAppendEntries := fun _ => Except.error "bad json",
    decodeInstallSnapshot := fun _ => Except.error "bad json",
    decodeVote := fun _ => Except.error "bad json" }

/-- Like `okCodecs` but the three consensus response serializers fail. -/
def failEncodeCodecs : Codecs :=
  { okCodecs with
    encodeAppendEntriesResp := fun _ => Except.error "ser",
    encodeInstallSnapshotResp := fun _ => Except.error "ser",
    encodeVoteResp := fun _ => Except.error "ser" }

/-- Like `okCodecs` but the `ForwardResponse` to `AppliedState` conversion
fails on every value. -/
def noConvCodecs : Codecs :=
  { okCodecs with try_into_applied := fun _ => none }

/-- A meta node on which every invocation succeeds. -/
def okNode : MetaNode :=
  { handle_forwardable_request := fun _ => Except.ok { raw := "fwd" },
    raft_append_entries := fun _ => Except.ok { raw := "ae" },
    raft_install_snapshot := fun _ => Except.ok { raw := "is" },
    raft_vote := fun _ => Except.ok { raw := "vt" } }

/-- A concrete service instance: signing key 7, the all-ok meta node. -/
def sampleSvc : MetaServiceImpl :=
  { token := { key := 7 }, meta_node := okNode }

/-- Metadata carrying a token issued (and hence verifiable) by
`sampleSvc`. -/
def goodMeta : MetadataMap :=
  { authTokenBin := some (some (FlightToken.issuedToken { key := 7 } "root")) }

/-!  Shared helper lemmas. -/

/-- Any error returned by `check_token` carries the internal status code
category: both the metadata-extraction failure and the verification
failure are built with `Status::internal`. -/
theorem check_token_error_code (s : MetaServiceImpl) (m : MetadataMap)
    (st : Status) (h : s.check_token m = Except.error st) :
    st.code = StatusCode.internal := by
  unfold MetaServiceImpl.check_token at h
  cases hm : m.getAuthToken with
  | none =>
    rw [hm] at h
    injection h with h
    subst h
    rfl
  | some tok =>
    rw [hm] at h
    dsimp only at h
    cases hv : s.token.try_verify_token tok with
    | error e =>
      rw [hv] at h
      injection h with h
      subst h
      rfl
    | ok c =>
      rw [hv] at h
      cases h

/-- When the first frame carries a credential whose username is `root`, the
handshake succeeds with the single-frame stream carrying the issued
token. -/
theorem handshake_ok_of_root (s : MetaServiceImpl) (cfg : Codecs)
    (frames : List (Except Status HandshakeRequest)) (req : HandshakeRequest)
    (auth : BasicAuth)
    (h1 : frames.head? = some (Except.ok req))
    (h2 : cfg.decodeBasicAuth req.payload = Except.ok auth)
    (hu : auth.username = "root") :
    handshake s cfg frames = Except.ok [{ payload := s.token.issuedToken "root" }] := by
  cases frames with
  | nil => simp at h1
  | cons f rest =>
    simp only [List.head?, Option.some.injEq] at h1
    subst h1
    simp [handshake, h2, hu, FlightToken.try_create_token]

/-- When the first frame carries a credential whose username is not `root`,
the handshake fails with an unauthenticated status naming that username. -/
theorem handshake_err_of_not_root (s : MetaServiceImpl) (cfg : Codecs)
    (frames : List (Except Status HandshakeRequest)) (req : HandshakeRequest)
    (auth : BasicAuth)
    (h1 : frames.head? = some (Except.ok req))
    (h2 : cfg.decodeBasicAuth req.payload = Except.ok auth)
    (hu : auth.username ≠ "root") :
    handshake s cfg frames =
      Except.error (Status.unauthenticated ("Unknown user: " ++ auth.username)) := by
  cases frames with
  | nil => simp at h1
  | cons f rest =>
    simp only [List.head?, Option.some.injEq] at h1
    subst h1
    simp [handshake, h2, hu]

/-!  Claim theorems. -/

/-- Claim C1, counterexample: a Forward request with a missing bearer token
fails before the meta node is invoked, but the failure is reported with the
internal status code category, not the unauthenticated one the claim
states. -/
theorem forward_missing_token_not_unauthenticated :
    (forward sampleSvc okCodecs
        { metadata := { authTokenBin := none }, message := { data := "x" } }).1 =
      HandlerOutcome.err (Status.internal "Error auth-token-bin is empty") ∧
    StatusCode.internal ≠ StatusCode.unauthenticated :=
  ⟨rfl, by decide⟩

/-- Claim C1 (amended): the Forward handler verifies the bearer token first
and only invokes `handle_forwardable_request` after successful
verification; a request with a missing, malformed, or unverifiable token
fails without the meta node being invoked, and that failure is reported in
the internal status code category. -/
theorem forward_auth_failure_internal_no_invoke (s : MetaServiceImpl)
    (cfg : Codecs) (request : Request RaftRequest) (st : Status)
    (h : s.check_token request.metadata = Except.error st) :
    forward s cfg request = (HandlerOutcome.err st, []) ∧
    st.code = StatusCode.internal := by
  constructor
  · simp [forward, h]
  · exact check_token_error_code s request.metadata st h

/-- Witness for C1 at a concrete request with a missing token. -/
theorem forward_auth_failure_internal_no_invoke_witness :
    forward sampleSvc okCodecs
        { metadata := { authTokenBin := none }, message := { data := "m" } } =
      (HandlerOutcome.err (Status.internal "Error auth-token-bin is empty"), []) ∧
    (Status.internal "Error auth-token-bin is empty").code = StatusCode.internal :=
  forward_auth_failure_internal_no_invoke sampleSvc okCodecs
    { metadata := { authTokenBin := none }, message := { data := "m" } }
    (Status.internal "Error auth-token-bin is empty") rfl

/-- Claim C2: a handshake whose first frame decodes to a credential with
username `root` replies with exactly one response frame whose payload is
the issued token, after which the stream ends; any other username yields an
unauthenticated error naming it, and no token frame is produced. -/
theorem handshake_root_single_token_frame (s : MetaServiceImpl) (cfg : Codecs)
    (frames : List (Except Status HandshakeRequest)) (req : HandshakeRequest)
    (auth : BasicAuth)
    (h1 : frames.head? = some (Except.ok req))
    (h2 : cfg.decodeBasicAuth req.payload = Except.ok auth) :
    (auth.username = "root" →
      handshake s cfg frames =
        Except.ok [{ payload := s.token.issuedToken "root" }]) ∧
    (auth.username ≠ "root" →
      handshake s cfg frames =
        Except.error (Status.unauthenticated ("Unknown user: " ++ auth.username))) :=
  ⟨fun hu => handshake_ok_of_root s cfg frames req auth h1 h2 hu,
   fun hu => handshake_err_of_not_root s cfg frames req auth h1 h2 hu⟩

/-- Witness for C2: the concrete credentials `root` (accepted, one token
frame) and `eve` (unauthenticated, no frame). -/
theorem handshake_root_single_token_frame_witness :
    handshake sampleSvc okCodecs
        [Except.ok { payload := [114, 111, 111, 116, 0, 112] }] =
      Except.ok [{ payload := FlightToken.issuedToken { key := 7 } "root" }] ∧
    handshake sampleSvc okCodecs
        [Except.ok { payload := [101, 118, 101, 0, 112] }] =
      Except.error (Status.unauthenticated ("Unknown user: " ++ "eve")) :=
  ⟨(handshake_root_single_token_frame sampleSvc okCodecs
      [Except.ok { payload := [114, 111, 111, 116, 0, 112] }]
      { payload := [114, 111, 111, 116, 0, 112] }
      { username := "root", password := "p" } rfl (by decide)).1 rfl,
   (handshake_root_single_token_frame sampleSvc okCodecs
      [Except.ok { payload := [101, 118, 101, 0, 112] }]
      { payload := [101, 118, 101, 0, 112] }
      { username := "eve", password := "p" } rfl (by decide)).2 (by decide)⟩

/-- Claim C4: the Write, AppendEntries, InstallSnapshot, and Vote handlers
perform no token verification: two requests identical except in their
auth-token metadata produce the same handler result. -/
theorem handlers_ignore_auth_metadata (s : MetaServiceImpl) (cfg : Codecs)
    (m1 m2 : MetadataMap) (msg : RaftRequest) :
    write s cfg { metadata := m1, message := msg } =
      write s cfg { metadata := m2, message := msg } ∧
    append_entries s cfg { metadata := m1, message := msg } =
      append_entries s cfg { metadata := m2, message := msg } ∧
    install_snapshot s cfg { metadata := m1, message := msg } =
      install_snapshot s cfg { metadata := m2, message := msg } ∧
    vote s cfg { metadata := m1, message := msg } =
      vote s cfg { metadata := m2, message := msg } :=
  ⟨rfl, rfl, rfl, rfl⟩

/-- Claim C7: every Get request, including one naming a key absent from the
store, receives a successful reply (never an error status) whose ok field
is false. -/
theorem get_never_errors_ok_false (s : MetaServiceImpl)
    (request : Request GetReq) :
    ∃ rep : GetReply,
      (get s request).1 = HandlerOutcome.ok rep ∧ rep.ok = false :=
  ⟨{ ok := false, key := request.message.key, value := "" }, rfl, rfl⟩

/-- Claim C8: the Get handler never consults the state machine — for every
request, the reply is exactly ok = false with the key echoed back and an
empty value, and no meta node call is made. -/
theorem get_reply_exact_no_state_machine (s : MetaServiceImpl)
    (request : Request GetReq) :
    get s request =
      (HandlerOutcome.ok
        { ok := false, key := request.message.key, value := "" }, []) :=
  rfl

/-- Claim C3, counterexample: when serialization of the consensus response
fails, the append-entries handler panics (the expect in the source) rather
than merely failing the request, so the claim that there is no panic in the
handler on a response-serialization failure is false. -/
theorem append_entries_serialize_failure_panics :
    (append_entries sampleSvc failEncodeCodecs
        { metadata := { authTokenBin := none }, message := { data := "a" } }).1 =
      HandlerOutcome.panic "fail to serialize resp" :=
  rfl

/-- Claim C3 (amended): for each of AppendEntries, InstallSnapshot and
Vote, a failure to serialize the consensus response causes the handler to
panic via the expect with message `fail to serialize resp`, after the
consensus engine has been invoked for that request, instead of failing the
request with an error reply. -/
theorem consensus_serialize_failure_panic (s : MetaServiceImpl) (cfg : Codecs)
    (ra ri rv : Request RaftRequest)
    (aq : AppendEntriesReq) (ar : AppendEntriesResp)
    (iq : InstallSnapshotReq) (ir : InstallSnapshotResp)
    (vq : VoteReq) (vr : VoteResp) (ea ei ev : String)
    (ha1 : cfg.decodeAppendEntries ra.message.data = Except.ok aq)
    (ha2 : s.meta_node.raft_append_entries aq = Except.ok ar)
    (ha3 : cfg.encodeAppendEntriesResp ar = Except.error ea)
    (hi1 : cfg.decodeInstallSnapshot ri.message.data = Except.ok iq)
    (hi2 : s.meta_node.raft_install_snapshot iq = Except.ok ir)
    (hi3 : cfg.encodeInstallSnapshotResp ir = Except.error ei)
    (hv1 : cfg.decodeVote rv.message.data = Except.ok vq)
    (hv2 : s.meta_node.raft_vote vq = Except.ok vr)
    (hv3 : cfg.encodeVoteResp vr = Except.error ev) :
    append_entries s cfg ra =
      (HandlerOutcome.panic "fail to serialize resp", [NodeCall.appendEntries aq]) ∧
    install_snapshot s cfg ri =
      (HandlerOutcome.panic "fail to serialize resp", [NodeCall.installSnapshot iq]) ∧
    vote s cfg rv =
      (HandlerOutcome.panic "fail to serialize resp", [NodeCall.voteCall vq]) := by
  refine ⟨?_, ?_, ?_⟩
  · simp [append_entries, ha1, ha2, ha3]
  · simp [install_snapshot, hi1, hi2, hi3]
  · simp [vote, hv1, hv2, hv3]

/-- Witness for C3 at concrete requests whose response serializers fail. -/
theorem consensus_serialize_failure_panic_witness :
    append_entries sampleSvc failEncodeCodecs
        { metadata := { authTokenBin := none }, message := { data := "b" } } =
      (HandlerOutcome.panic "fail to serialize resp",
        [NodeCall.appendEntries { raw := "b" }]) ∧
    install_snapshot sampleSvc failEncodeCodecs
        { metadata := { authTokenBin := none }, message := { data := "b" } } =
      (HandlerOutcome.panic "fail to serialize resp",
        [NodeCall.installSnapshot { raw := "b" }]) ∧
    vote sampleSvc failEncodeCodecs
        { metadata := { authTokenBin := none }, message := { data := "b" } } =
      (HandlerOutcome.panic "fail to serialize resp",
        [NodeCall.voteCall { raw := "b" }]) :=
  consensus_serialize_failure_panic sampleSvc failEncodeCodecs
    { metadata := { authTokenBin := none }, message := { data := "b" } }
    { metadata := { authTokenBin := none }, message := { data := "b" } }
    { metadata := { authTokenBin := none }, message := { data := "b" } }
    { raw := "b" } { raw := "ae" } { raw := "b" } { raw := "is" }
    { raw := "b" } { raw := "vt" } "ser" "ser" "ser"
    rfl rfl rfl rfl rfl rfl rfl rfl rfl

/-- Claim C5: a Write whose envelope decodes to a LogEntry is entered via
`handle_forwardable_request` as a ForwardRequest with a positive
forward-to-leader hop budget and a Write body carrying that entry, and the
reply is built from the AppliedState result of that call. -/
theorem write_enters_forwardable_with_hop_budget (s : MetaServiceImpl)
    (cfg : Codecs) (request : Request RaftRequest) (ent : LogEntry)
    (h : cfg.decodeLogEntry request.message = Except.ok ent) :
    (write s cfg request).2 =
      [NodeCall.forwardable
        { forward_to_leader := 1, body := ForwardRequestBody.write ent }] ∧
    0 < ({ forward_to_leader := 1, body := ForwardRequestBody.write ent } :
        ForwardRequest).forward_to_leader ∧
    (∀ x a,
      s.meta_node.handle_forwardable_request
          { forward_to_leader := 1, body := ForwardRequestBody.write ent } =
        Except.ok x →
      cfg.try_into_applied x = some a →
      (write s cfg request).1 =
        HandlerOutcome.ok (RaftReply.ofAppliedResult cfg (Except.ok a))) ∧
    (∀ e,
      s.meta_node.handle_forwardable_request
          { forward_to_leader := 1, body := ForwardRequestBody.write ent } =
        Except.error e →
      (write s cfg request).1 =
        HandlerOutcome.ok (RaftReply.ofAppliedResult cfg (Except.error e))) := by
  refine ⟨?_, Nat.one_pos, ?_, ?_⟩
  · cases hx : s.meta_node.handle_forwardable_request
        { forward_to_leader := 1, body := ForwardRequestBody.write ent } with
    | error e => simp [write, h, hx]
    | ok x =>
      cases hy : cfg.try_into_applied x with
      | none => simp [write, h, hx, hy]
      | some a => simp [write, h, hx, hy]
  · intro x a hx hy
    simp [write, h, hx, hy]
  · intro e he
    simp [write, h, he]

/-- Witness for C5 at a concrete decodable Write envelope. -/
theorem write_enters_forwardable_with_hop_budget_witness :
    (write sampleSvc okCodecs
        { metadata := { authTokenBin := none }, message := { data := "w" } }).2 =
      [NodeCall.forwardable
        { forward_to_leader := 1,
          body := ForwardRequestBody.write { raw := "w" } }] ∧
    (write sampleSvc okCodecs
        { metadata := { authTokenBin := none }, message := { data := "w" } }).1 =
      HandlerOutcome.ok
        (RaftReply.ofAppliedResult okCodecs (Except.ok { raw := "fwd" })) :=
  ⟨(write_enters_forwardable_with_hop_budget sampleSvc okCodecs
      { metadata := { authTokenBin := none }, message := { data := "w" } }
      { raw := "w" } rfl).1,
   ((write_enters_forwardable_with_hop_budget sampleSvc okCodecs
      { metadata := { authTokenBin := none }, message := { data := "w" } }
      { raw := "w" } rfl).2.2.1 { raw := "fwd" } { raw := "fwd" } rfl rfl)⟩

/-- Claim C6, counterexample: an AppendEntries envelope whose payload does
not decode fails with the internal status code category, not the
invalid-argument one the claim states (and the engine is not invoked). -/
theorem append_entries_decode_failure_not_invalid_argument :
    append_entries sampleSvc failDecodeCodecs
        { metadata := { authTokenBin := none }, message := { data := "notjson" } } =
      (HandlerOutcome.err (Status.internal "bad json"), []) ∧
    StatusCode.internal ≠ StatusCode.invalidArgument :=
  ⟨rfl, by decide⟩

/-- Claim C6 (amended): an undecodable envelope payload makes the handler
fail without the meta node or consensus engine being invoked; Forward maps
the failure to the invalid-argument status code category, while
AppendEntries, InstallSnapshot and Vote map it to the internal category. -/
theorem decode_failure_status_no_invoke (s : MetaServiceImpl) (cfg : Codecs)
    (rf ra ri rv : Request RaftRequest) (claim : FlightClaim)
    (ef ea ei ev : String)
    (htok : s.check_token rf.metadata = Except.ok claim)
    (hf : cfg.decodeForwardRequest rf.message.data = Except.error ef)
    (ha : cfg.decodeAppendEntries ra.message.data = Except.error ea)
    (hi : cfg.decodeInstallSnapshot ri.message.data = Except.error ei)
    (hv : cfg.decodeVote rv.message.data = Except.error ev) :
    forward s cfg rf = (HandlerOutcome.err (Status.invalid_argument ef), []) ∧
    append_entries s cfg ra = (HandlerOutcome.err (Status.internal ea), []) ∧
    install_snapshot s cfg ri = (HandlerOutcome.err (Status.internal ei), []) ∧
    vote s cfg rv = (HandlerOutcome.err (Status.internal ev), []) := by
  refine ⟨?_, ?_, ?_, ?_⟩
  · simp [forward, htok, hf]
  · simp [append_entries, ha]
  · simp [install_snapshot, hi]
  · simp [vote, hv]

/-- Witness for C6 at concrete undecodable envelopes (with a valid token on
the Forward request). -/
theorem decode_failure_status_no_invoke_witness :
    forward sampleSvc failDecodeCodecs
        { metadata := goodMeta, message := { data := "z" } } =
      (HandlerOutcome.err (Status.invalid_argument "bad json"), []) ∧
    append_entries sampleSvc failDecodeCodecs
        { metadata := goodMeta, message := { data := "z" } } =
      (HandlerOutcome.err (Status.internal "bad json"), []) ∧
    install_snapshot sampleSvc failDecodeCodecs
        { metadata := goodMeta, message := { data := "z" } } =
      (HandlerOutcome.err (Status.internal "bad json"), []) ∧
    vote sampleSvc failDecodeCodecs
        { metadata := goodMeta, message := { data := "z" } } =
      (HandlerOutcome.err (Status.internal "bad json"), []) :=
  decode_failure_status_no_invoke sampleSvc failDecodeCodecs
    { metadata := goodMeta, message := { data := "z" } }
    { metadata := goodMeta, message := { data := "z" } }
    { metadata := goodMeta, message := { data := "z" } }
    { metadata := goodMeta, message := { data := "z" } }
    { username := "root" } "bad json" "bad json" "bad json" "bad json"
    (by decide) rfl rfl rfl rfl

/-- Claim C9: handshake authentication examines only the username of the
decoded credential — two first frames whose credentials both carry username
`root` but different passwords both succeed with the same issued token; the
password is never checked. -/
theorem handshake_ignores_password (s : MetaServiceImpl) (cfg : Codecs)
    (f1 f2 : List (Except Status HandshakeRequest))
    (r1 r2 : HandshakeRequest) (p1 p2 : String)
    (h1 : f1.head? = some (Except.ok r1))
    (h2 : cfg.decodeBasicAuth r1.payload =
      Except.ok { username := "root", password := p1 })
    (h3 : f2.head? = some (Except.ok r2))
    (h4 : cfg.decodeBasicAuth r2.payload =
      Except.ok { username := "root", password := p2 }) :
    handshake s cfg f1 =
      Except.ok [{ payload := s.token.issuedToken "root" }] ∧
    handshake s cfg f1 = handshake s cfg f2 := by
  have a1 := handshake_ok_of_root s cfg f1 r1
    { username := "root", password := p1 } h1 h2 rfl
  have a2 := handshake_ok_of_root s cfg f2 r2
    { username := "root", password := p2 } h3 h4 rfl
  exact ⟨a1, a1.trans a2.symm⟩

/-- Witness for C9: two concrete `root` credentials with different
passwords. -/
theorem handshake_ignores_password_witness :
    handshake sampleSvc okCodecs
        [Except.ok { payload := [114, 111, 111, 116, 0, 97] }] =
      Except.ok [{ payload := sampleSvc.token.issuedToken "root" }] ∧
    handshake sampleSvc okCodecs
        [Except.ok { payload := [114, 111, 111, 116, 0, 97] }] =
      handshake sampleSvc okCodecs
        [Except.ok { payload := [114, 111, 111, 116, 0, 98] }] :=
  handshake_ignores_password sampleSvc okCodecs
    [Except.ok { payload := [114, 111, 111, 116, 0, 97] }]
    [Except.ok { payload := [114, 111, 111, 116, 0, 98] }]
    { payload := [114, 111, 111, 116, 0, 97] }
    { payload := [114, 111, 111, 116, 0, 98] }
    "a" "b" rfl (by decide) rfl (by decide)

/-- Claim C10: the Write handler unwraps the conversion of a successful
forwardable-request result into an AppliedState without an error path;
under the precondition that every successful result converts, the panic
branch is unreachable, and for a successful result that does not convert
the handler panics instead of returning an error reply. -/
theorem write_unwrap_panic_reachability (s : MetaServiceImpl) (cfg : Codecs)
    (request : Request RaftRequest)
    (hconv : ∀ fr x, s.meta_node.handle_forwardable_request fr = Except.ok x →
      ∃ a, cfg.try_into_applied x = some a) :
    (∀ m, (write s cfg request).1 ≠ HandlerOutcome.panic m) ∧
    (write sampleSvc noConvCodecs
        { metadata := { authTokenBin := none }, message := { data := "x" } }).1 =
      HandlerOutcome.panic "called Result::unwrap on an Err value" := by
  constructor
  · intro m
    cases hd : cfg.decodeLogEntry request.message with
    | error st => simp [write, hd]
    | ok ent =>
      cases hx : s.meta_node.handle_forwardable_request
          { forward_to_leader := 1, body := ForwardRequestBody.write ent } with
      | error e => simp [write, hd, hx]
      | ok x =>
        obtain ⟨a, ha⟩ := hconv _ x hx
        simp [write, hd, hx, ha]
  · rfl

/-- Witness for C10: with the all-ok meta node and a total conversion the
precondition holds and the Write handler does not panic. -/
theorem write_unwrap_panic_reachability_witness :
    (write sampleSvc okCodecs
        { metadata := { authTokenBin := none }, message := { data := "y" } }).1 ≠
      HandlerOutcome.panic "called Result::unwrap on an Err value" :=
  (write_unwrap_panic_reachability sampleSvc okCodecs
    { metadata := { authTokenBin := none }, message := { data := "y" } }
    (fun _ x _ => ⟨{ raw := x.raw }, rfl⟩)).1
    "called Result::unwrap on an Err value"

end MetaSrv
